import Mathlib

/-!
Verification development for the Image-Classification-Service backend.

The definitions below are a shallow embedding of the Python sources:
* `ClassificationService.classify` from
  `backend/app/services/classification_service.py`,
* `CacheService.get` / `CacheService.set` from
  `backend/app/services/cache_service.py`,
* `MonetizationService.log_api_usage` / `check_rate_limits` from
  `backend/app/services/monetization_service.py`,
* `MonetizationMiddleware.dispatch` from
  `backend/app/middleware/monetization.py`.

Python floats holding confidences, costs and processing times are modelled
as rationals (`ℚ`); the claims proved are order / filtering / arithmetic
properties that hold for the exact decimal constants appearing in the code.
Python dicts become structures; a key that a dict may or may not carry
becomes an `Option` field.
-/

namespace ImgClass

/-- One prediction dict `{class_name, confidence, class_id}` as produced by a
backend's `predict`. -/
structure Prediction where
  class_name : String
  confidence : ℚ
  class_id : String
deriving DecidableEq, Repr

/-- The result dict built by `ClassificationService.classify`
(`processing_time` is wall-clock and not modelled; the remaining fields are). -/
structure ClassificationResult where
  predictions : List Prediction
  confidence_scores : List (String × ℚ)
  model_used : String
  threshold_applied : ℚ
  from_cache : Bool
  cache_hit : Bool
deriving DecidableEq, Repr

namespace ClassificationService

/-- The descending-by-confidence order used by
`filtered_predictions.sort(key=lambda x: x['confidence'], reverse=True)`:
Python's stable sort with `reverse=True` keeps an element before another
exactly when its key is ≥ the other's.  Python's sort is stable, and all
stable sorts of a list by the same total preorder agree, so the model uses
insertion sort (which is stable for this non-strict order). -/
def predGe (a b : Prediction) : Prop :=
  b.confidence ≤ a.confidence

instance : DecidableRel predGe := fun a b =>
  inferInstanceAs (Decidable (b.confidence ≤ a.confidence))

instance : IsTrans Prediction predGe :=
  ⟨fun _ _ _ h1 h2 => le_trans h2 h1⟩

instance : IsTotal Prediction predGe :=
  ⟨fun a b => le_total b.confidence a.confidence⟩

/-- `model_name not in self.models` fallback (lines 264-270 of
`classification_service.py`): an unknown name is replaced by the first
registered model, or by `"mock"` when the registry is empty. -/
def resolveModel (models : List String) (model_name : String) : String :=
  if model_name ∈ models then model_name
  else
    match models with
    | [] => "mock"
    | m :: _ => m

/-- Whether a model name is matched by one of the routing branches of
`classify` (mock / google_vision / the two TensorFlow names / `*_torch` /
`custom_*`); a name matching no branch hits the
`raise ValueError("Unknown model: ...")` arm. -/
def routable (name : String) : Bool :=
  name = "mock" || name = "google_vision" ||
  name = "mobilenet_v2" || name = "resnet50" ||
  name.endsWith "_torch" || name.startsWith "custom_"

/-- The cache-miss path of `classify` (lines 264-334): resolve the model
name, route to a backend (modelled as a function from the resolved name to
the raw prediction list), filter by `confidence >= threshold`, sort
descending by confidence, truncate to the top 5. -/
def classifyMiss (models : List String) (backend : String → List Prediction)
    (model_name : String) (threshold : ℚ) : Except String ClassificationResult :=
  let name := resolveModel models model_name
  if routable name then
    let raw := backend name
    let filtered := raw.filter (fun p => threshold ≤ p.confidence)
    let sorted := filtered.insertionSort predGe
    Except.ok
      { predictions := sorted.take 5
        confidence_scores := filtered.map (fun p => (p.class_name, p.confidence))
        model_used := name
        threshold_applied := threshold
        from_cache := false
        cache_hit := false }
  else
    Except.error ("Unknown model: " ++ name)

/-- `ClassificationService.classify` (lines 208-334).  The cache lookup
`cache_service.get_cached_classification(image_hash, model_name)` is
modelled by `cacheLookup`, keyed by the model name as given (the image hash
is fixed by the call); on a hit the cached dict is returned with
`from_cache` / `cache_hit` overwritten to `True`, with no re-filtering. -/
def classify (models : List String) (backend : String → List Prediction)
    (cacheLookup : String → Option ClassificationResult) (use_cache : Bool)
    (model_name : String) (threshold : ℚ) : Except String ClassificationResult :=
  if use_cache then
    match cacheLookup model_name with
    | some cached =>
        Except.ok { cached with from_cache := true, cache_hit := true }
    | none => classifyMiss models backend model_name threshold
  else
    classifyMiss models backend model_name threshold

/-- The raw prediction set produced by `_classify_mock` (lines 342-361):
five fixed classes with scores `[0.8, 0.15, 0.03, 0.015, 0.005]`. -/
def mockPredictions : List Prediction :=
  [⟨"cat", mkRat 4 5, "0"⟩, ⟨"dog", mkRat 3 20, "1"⟩, ⟨"bird", mkRat 3 100, "2"⟩,
   ⟨"car", mkRat 3 200, "3"⟩, ⟨"airplane", mkRat 1 200, "4"⟩]

/-- The result `classify` computes for the mock backend at threshold `0.5`
with an empty cache: only `cat` (confidence `0.8`) survives the filter. -/
def mockResultHalf : ClassificationResult :=
  { predictions := [⟨"cat", mkRat 4 5, "0"⟩]
    confidence_scores := [("cat", mkRat 4 5)]
    model_used := "mock"
    threshold_applied := mkRat 1 2
    from_cache := false
    cache_hit := false }

end ClassificationService

namespace CacheService

/-- Outcome of one Redis call as seen by the `try`/`except` blocks of
`cache_service.py`: a returned value, or a raised exception (carrying its
message) that the service catches. -/
inductive StoreResult (α : Type) where
  | ok : α → StoreResult α
  | exn : String → StoreResult α
deriving DecidableEq, Repr

/-- The Redis client interface used by `CacheService.get` / `set`:
`get` may return a stored string or `None`, `setex` stores with a TTL;
either call may throw. -/
structure RedisClient where
  get : String → StoreResult (Option String)
  setex : String → Nat → String → StoreResult String

/-- `ttl = ttl or settings.CACHE_TTL` (line 81): Python's `or` replaces both
`None` and `0` (falsy) by the configured default. -/
def ttlValue (ttl : Option Nat) (defaultTtl : Nat) : Nat :=
  match ttl with
  | none => defaultTtl
  | some t => if t = 0 then defaultTtl else t

/-- `CacheService.get` (lines 60-73): `None` when the cache is disabled or
no client is connected; a thrown store error is caught and yields `None`;
`if value:` treats the empty string as falsy.  JSON decoding of the stored
string is not modelled (values are returned as stored). -/
def get (enabled : Bool) (client : Option RedisClient) (key : String) :
    Option String :=
  match enabled, client with
  | false, _ => none
  | true, none => none
  | true, some c =>
      match c.get key with
      | .ok (some v) => if v = "" then none else some v
      | .ok none => none
      | .exn _ => none

/-- `CacheService.set` (lines 75-91): `False` when the cache is disabled or
no client is connected; a thrown store error is caught and yields `False`;
otherwise `True`. -/
def set (enabled : Bool) (client : Option RedisClient) (key value : String)
    (ttl : Option Nat) (defaultTtl : Nat) : Bool :=
  match enabled, client with
  | false, _ => false
  | true, none => false
  | true, some c =>
      match c.setex key (ttlValue ttl defaultTtl) value with
      | .ok _ => true
      | .exn _ => false

/-- A client whose every operation throws (store unreachable). -/
def exnStore : RedisClient :=
  { get := fun _ => .exn "connection refused"
    setex := fun _ _ _ => .exn "connection refused" }

end CacheService

namespace MonetizationService

/-- `SubscriptionTier` enum (lines 19-24). -/
inductive SubscriptionTier where
  | free
  | basic
  | professional
  | enterprise
deriving DecidableEq, Repr

/-- Per-tier configuration from `_get_pricing_config` (lines 85-123). -/
structure TierConfig where
  included_requests : Nat
  rate_limit_per_minute : Nat
  rate_limit_per_hour : Nat
  overage_cost_per_request : ℚ
deriving DecidableEq, Repr

/-- The `tiers` table of `_get_pricing_config`. -/
def tierConfig : SubscriptionTier → TierConfig
  | .free => ⟨1000, 10, 100, mkRat 1 100⟩
  | .basic => ⟨10000, 60, 1000, mkRat 1 200⟩
  | .professional => ⟨100000, 300, 5000, mkRat 1 500⟩
  | .enterprise => ⟨500000, 1000, 20000, mkRat 1 1000⟩

/-- `base_cost` from the `services` table of `_get_pricing_config`
(lines 124-131); an unknown service type falls back to `1`
(lines 364-367). -/
def base_cost (service_type : String) : ℚ :=
  if service_type = "image_classification" then 1
  else if service_type = "video_classification" then 3
  else if service_type = "audio_classification" then 2
  else if service_type = "batch_processing" then 1
  else if service_type = "real_time_streaming" then 5
  else if service_type = "custom_model_inference" then 2
  else 1

/-- `complexity_multiplier` from the `services` table; an unknown service
type falls back to `1.0`. -/
def complexity_multiplier (service_type : String) : ℚ :=
  if service_type = "image_classification" then 1
  else if service_type = "video_classification" then mkRat 3 2
  else if service_type = "audio_classification" then mkRat 6 5
  else if service_type = "batch_processing" then mkRat 4 5
  else if service_type = "real_time_streaming" then 2
  else if service_type = "custom_model_inference" then mkRat 13 10
  else 1

/-- The size/time factor of `log_api_usage` (lines 374-379):
`cost_multiplier = 1.0`, `*= 1.5` when `processing_time > 5.0`,
`*= 1.2` when `request_size > 1024*1024`; the two sequential `*=` are the
product of the two factors. -/
def cost_multiplier (processing_time : ℚ) (request_size : Nat) : ℚ :=
  (if 5 < processing_time then mkRat 3 2 else 1) *
  (if 1024 * 1024 < request_size then mkRat 6 5 else 1)

/-- `calculated_cost = base_cost * complexity_multiplier * cost_multiplier`
(line 380). -/
def calculated_cost (service_type : String) (processing_time : ℚ)
    (request_size : Nat) : ℚ :=
  base_cost service_type * complexity_multiplier service_type *
    cost_multiplier processing_time request_size

/-- One usage-log entry (`usage_entry`, lines 383-397; ids, timestamps and
the masked key are not modelled). -/
structure UsageEntry where
  service_type : String
  endpoint : String
  request_size : Nat
  processing_time : ℚ
  success : Bool
  cost : ℚ
deriving DecidableEq, Repr

/-- The subscription counters touched by `log_api_usage`. -/
structure Subscription where
  included_requests : Nat
  used_requests : Nat
  overage_requests : Nat
deriving DecidableEq, Repr

/-- The monetization state `log_api_usage` mutates: the subscription, the
API key's lifetime `total_requests`, and the usage log. -/
structure MonetState where
  subscription : Subscription
  total_requests : Nat
  usage_logs : List UsageEntry
deriving DecidableEq, Repr

/-- `if len(self.usage_logs) > 10000: self.usage_logs = self.usage_logs[-10000:]`
(lines 402-404): keep only the most recent 10000 entries. -/
def truncateLogs (l : List UsageEntry) : List UsageEntry :=
  if 10000 < l.length then l.drop (l.length - 10000) else l

/-- The result dict of a successful `log_api_usage` (lines 435-441);
`remaining_requests = max(0, included - used)` is ℕ-truncated subtraction. -/
structure LoggedUsage where
  cost : ℚ
  remaining_requests : Nat
  overage_requests : Nat
deriving DecidableEq, Repr

/-- Arguments of one `log_api_usage` call. -/
structure UsageCall where
  service_type : String
  endpoint : String
  request_size : Nat
  processing_time : ℚ
  success : Bool
deriving DecidableEq, Repr

/-- The usage entry built for a call (cost from `calculated_cost`). -/
def entryOf (c : UsageCall) : UsageEntry :=
  ⟨c.service_type, c.endpoint, c.request_size, c.processing_time, c.success,
   calculated_cost c.service_type c.processing_time c.request_size⟩

/-- `MonetizationService.log_api_usage` (lines 328-447) for a valid active
key and subscription: computes the cost, appends the entry (then truncates
the log to the most recent 10000), increments `used_requests`, sets
`overage_requests = used - included` once over quota, increments the key's
`total_requests`.  The `success` argument is stored in the entry but gates
nothing. -/
def log_api_usage (s : MonetState) (c : UsageCall) :
    MonetState × LoggedUsage :=
  let cost := calculated_cost c.service_type c.processing_time c.request_size
  let logs := truncateLogs (s.usage_logs ++ [entryOf c])
  let used := s.subscription.used_requests + 1
  let overage :=
    if s.subscription.included_requests < used then
      used - s.subscription.included_requests
    else s.subscription.overage_requests
  let sub : Subscription :=
    { s.subscription with used_requests := used, overage_requests := overage }
  (⟨sub, s.total_requests + 1, logs⟩,
   ⟨cost, sub.included_requests - used, overage⟩)

/-- A sequence of `log_api_usage` calls, threading the state. -/
def logCalls (s : MonetState) : List UsageCall → MonetState
  | [] => s
  | c :: cs => logCalls (log_api_usage s c).1 cs

/-- A fresh subscription as built by `create_subscription` (lines 157-176):
`used_requests = 0`, `overage_requests = 0`, `included_requests` from the
tier table, no usage yet. -/
def freshState (tier : SubscriptionTier) : MonetState :=
  ⟨⟨(tierConfig tier).included_requests, 0, 0⟩, 0, []⟩

/-- A sample call used as a concrete input. -/
def sampleCall : UsageCall :=
  ⟨"image_classification", "/api/v1/classification/classify", 1000, 1, true⟩

/-- A sample slow, large call (6 s processing time, 2.5 MB request). -/
def sampleBigCall : UsageCall :=
  ⟨"video_classification", "/api/v1/multimodal/video", 2500000, mkRat 6 1,
   false⟩

/-- The per-minute / per-hour limits read from
`subscription["rate_limits"]`. -/
structure RateLimits where
  per_minute : Nat
  per_hour : Nat
deriving DecidableEq, Repr

/-- The rate counters held in the cache under
`rate_limit:{key}:minute:{%Y%m%d%H%M}` and `rate_limit:{key}:hour:{%Y%m%d%H}`.
Time is modelled as a minute index; the minute bucket is the index itself,
the hour bucket the index divided by 60 (the truncated-timestamp keys are in
bijection with these buckets). -/
structure RateState where
  minuteCount : Nat → Nat
  hourCount : Nat → Nat

/-- No requests counted yet (a fresh cache returns `None`, read as 0). -/
def zeroRate : RateState :=
  ⟨fun _ => 0, fun _ => 0⟩

/-- The outcome of `check_rate_limits` (lines 557-632): a denial carries
the limit, the current count and the reset time; `allowed` carries the
remaining counts returned in the response dict. -/
inductive RateCheck where
  | allowed (minute_remaining hour_remaining : Nat)
  | deniedMinute (limit current reset_time : Nat)
  | deniedHour (limit current reset_time : Nat)
deriving DecidableEq, Repr

/-- `MonetizationService.check_rate_limits` (lines 557-632): the minute
window is checked first (`minute_count >= per_minute` denies with the
minute limit and `reset_time = now + 1 minute`), then the hour window;
when both pass, both counters are incremented. -/
def check_rate_limits (rl : RateLimits) (st : RateState) (t : Nat) :
    RateCheck × RateState :=
  let mc := st.minuteCount t
  if rl.per_minute ≤ mc then
    (.deniedMinute rl.per_minute mc (t + 1), st)
  else
    let hc := st.hourCount (t / 60)
    if rl.per_hour ≤ hc then
      (.deniedHour rl.per_hour hc (t + 60), st)
    else
      (.allowed (rl.per_minute - mc - 1) (rl.per_hour - hc - 1),
       ⟨fun k => if k = t then mc + 1 else st.minuteCount k,
        fun k => if k = t / 60 then hc + 1 else st.hourCount k⟩)

/-- `n` consecutive `check_rate_limits` calls at the same time `t`,
threading the counter state. -/
def iterCheck (rl : RateLimits) (st : RateState) (t : Nat) : Nat → RateState
  | 0 => st
  | n + 1 => (check_rate_limits rl (iterCheck rl st t n) t).2

end MonetizationService

namespace MonetizationMiddleware

open MonetizationService

/-- The dict returned by `check_rate_limits` as the middleware reads it via
`.get(...)`: a present key is `some`, an absent key `none`.
`check_rate_limits` sets `allowed` (and on denial `limit`, `current`,
`reset_time`); it never sets a `rate_limited` key. -/
structure RateLimitStatus where
  allowed : Option Bool := none
  rate_limited : Option Bool := none
  limit : Option Nat := none
  current : Option Nat := none
  reset_time : Option Nat := none
deriving DecidableEq, Repr

/-- The dict `check_rate_limits` actually returns for each outcome
(lines 590-629): denials carry `allowed=False, limit, current, reset_time`;
the allowed dict carries `allowed=True` (its remaining counts sit under a
nested `rate_limits` key, not modelled).  No branch sets `rate_limited`. -/
def rateStatusDict : RateCheck → RateLimitStatus
  | .allowed _ _ => { allowed := some true }
  | .deniedMinute l c r =>
      { allowed := some false, limit := some l, current := some c,
        reset_time := some r }
  | .deniedHour l c r =>
      { allowed := some false, limit := some l, current := some c,
        reset_time := some r }

/-- A middleware decision: reject with an HTTP status code and error code,
or forward the request to `call_next`. -/
inductive MwOutcome where
  | reject (statusCode : Nat) (error_code : String)
  | forward
deriving DecidableEq, Repr

/-- `MonetizationMiddleware.dispatch` (lines 29-102) for a metered
`/api/v1/` path: 401 when the `X-API-Key` header is absent, 401 when
validation fails, 429 when `rate_limit_status.get("rate_limited")` is
truthy — `dict.get` on an absent key yields `None` (falsy), modelled by
`Option.getD false` — otherwise the request is forwarded. -/
def dispatch (api_key : Option String) (valid : String → Bool)
    (rate_status : String → RateLimitStatus) : MwOutcome :=
  match api_key with
  | none => .reject 401 "API_KEY_MISSING"
  | some k =>
      if valid k then
        if (rate_status k).rate_limited.getD false then
          .reject 429 "RATE_LIMIT_EXCEEDED"
        else
          .forward
      else
        .reject 401 "API_KEY_INVALID"

end MonetizationMiddleware

end ImgClass

namespace ImgClass

namespace ClassificationService

theorem classifyMiss_eq_ok (models : List String)
    (backend : String → List Prediction) (model_name : String) (threshold : ℚ)
    (r : ClassificationResult)
    (h : classifyMiss models backend model_name threshold = Except.ok r) :
    r.predictions =
      (((backend (resolveModel models model_name)).filter
        (fun p => threshold ≤ p.confidence)).insertionSort predGe).take 5 := by
  unfold classifyMiss at h
  by_cases hr : routable (resolveModel models model_name)
  · simp only [hr, if_true] at h
    cases h
    rfl
  · simp only [hr, Bool.false_eq_true, if_false] at h
    cases h

theorem resolveModel_mem (models : List String) (model_name : String)
    (hne : models ≠ []) (hnm : model_name ∉ models) :
    resolveModel models model_name = models.head hne := by
  unfold resolveModel
  cases models with
  | nil => exact absurd rfl hne
  | cons m ms => simp [hnm]

theorem routable_resolveModel (models : List String) (model_name : String)
    (hall : ∀ m ∈ models, routable m = true) :
    routable (resolveModel models model_name) = true := by
  unfold resolveModel
  by_cases hm : model_name ∈ models
  · simpa [hm] using hall model_name hm
  · cases models with
    | nil => simp [hm, routable]
    | cons m ms => simpa [hm] using hall m (List.mem_cons_self m ms)

/-- C1: for every raw prediction set returned by a backend and every
confidence threshold `T`, the prediction list in the result returned by
`ClassificationService.classify` on a cache miss contains only predictions
with confidence ≥ `T`, is sorted non-increasing by confidence, and has at
most 5 entries. -/
theorem classify_miss_filters_sorts_top5
    (models : List String) (backend : String → List Prediction)
    (cacheLookup : String → Option ClassificationResult)
    (model_name : String) (T : ℚ) (r : ClassificationResult)
    (hmiss : cacheLookup model_name = none)
    (hok : classify models backend cacheLookup true model_name T = Except.ok r) :
    (∀ p ∈ r.predictions, T ≤ p.confidence) ∧
    r.predictions.Pairwise (fun a b => b.confidence ≤ a.confidence) ∧
    r.predictions.length ≤ 5 := by
  have hok' : classifyMiss models backend model_name T = Except.ok r := by
    simpa [classify, hmiss] using hok
  have hpred := classifyMiss_eq_ok models backend model_name T r hok'
  refine ⟨?_, ?_, ?_⟩
  · intro p hp
    rw [hpred] at hp
    have hp1 := List.take_subset 5 _ hp
    have hp2 := (List.perm_insertionSort predGe _).mem_iff.mp hp1
    have hp3 := List.of_mem_filter hp2
    exact of_decide_eq_true hp3
  · rw [hpred]
    have hs : (((backend (resolveModel models model_name)).filter
        (fun p => T ≤ p.confidence)).insertionSort predGe).Pairwise predGe :=
      List.sorted_insertionSort predGe _
    exact hs.sublist (List.take_sublist 5 _)
  · rw [hpred, List.length_take]
    exact min_le_left _ _

/-- Witness for C1 at the mock backend, threshold `0.5`, empty cache. -/
theorem classify_miss_filters_sorts_top5_witness :
    ((fun _ : String => (none : Option ClassificationResult)) "mock" = none) ∧
    (classify ["mock"] (fun _ => mockPredictions) (fun _ => none) true "mock" (mkRat 1 2) =
      Except.ok mockResultHalf) ∧
    ((∀ p ∈ mockResultHalf.predictions, mkRat 1 2 ≤ p.confidence) ∧
     mockResultHalf.predictions.Pairwise (fun a b => b.confidence ≤ a.confidence) ∧
     mockResultHalf.predictions.length ≤ 5) :=
  ⟨rfl, rfl,
   classify_miss_filters_sorts_top5 ["mock"] (fun _ => mockPredictions)
     (fun _ => none) "mock" (mkRat 1 2) mockResultHalf rfl rfl⟩

/-- C5: on a cache hit, `classify` returns the cached predictions annotated
`from_cache = true` without invoking any backend (the result does not depend
on the backend), and verbatim even when the caller supplies a different
confidence threshold (the result does not depend on the threshold). -/
theorem classify_cache_hit_verbatim
    (models models' : List String) (backend backend' : String → List Prediction)
    (cacheLookup : String → Option ClassificationResult)
    (model_name : String) (T T' : ℚ) (c : ClassificationResult)
    (hhit : cacheLookup model_name = some c) :
    classify models backend cacheLookup true model_name T =
      Except.ok { c with from_cache := true, cache_hit := true } ∧
    classify models backend cacheLookup true model_name T =
      classify models' backend' cacheLookup true model_name T' ∧
    ({ c with from_cache := true, cache_hit := true } :
      ClassificationResult).predictions = c.predictions := by
  refine ⟨?_, ?_, rfl⟩ <;> simp [classify, hhit]

/-- Witness for C5: a cache holding the mock result, two different
thresholds and two different backends. -/
theorem classify_cache_hit_verbatim_witness :
    ((fun _ : String => some mockResultHalf) "mock" = some mockResultHalf) ∧
    (classify [] (fun _ => mockPredictions) (fun _ => some mockResultHalf) true "mock" 0 =
      Except.ok { mockResultHalf with from_cache := true, cache_hit := true } ∧
     classify [] (fun _ => mockPredictions) (fun _ => some mockResultHalf) true "mock" 0 =
      classify ["mock"] (fun _ => []) (fun _ => some mockResultHalf) true "mock" 1 ∧
    ({ mockResultHalf with from_cache := true, cache_hit := true } :
      ClassificationResult).predictions = mockResultHalf.predictions) :=
  ⟨rfl, classify_cache_hit_verbatim [] ["mock"] (fun _ => mockPredictions)
    (fun _ => []) (fun _ => some mockResultHalf) "mock" 0 1 mockResultHalf rfl⟩

/-- C9: for every model name not present in the registered model table,
`classify` does not hit the `"Unknown model"` error branch: it falls back to
the first registered model, or to the mock stub when no model is
registered. -/
theorem classify_unknown_model_falls_back
    (models : List String) (backend : String → List Prediction)
    (cacheLookup : String → Option ClassificationResult) (use_cache : Bool)
    (model_name : String) (T : ℚ)
    (hall : ∀ m ∈ models, routable m = true)
    (hunk : model_name ∉ models) :
    (classify models backend cacheLookup use_cache model_name T).isOk = true ∧
    ∀ r, classifyMiss models backend model_name T = Except.ok r →
      r.model_used = models.headD "mock" := by
  have hr : routable (resolveModel models model_name) = true :=
    routable_resolveModel models model_name hall
  have hmiss : (classifyMiss models backend model_name T).isOk = true := by
    unfold classifyMiss
    simp only [hr, if_true]
    rfl
  refine ⟨?_, ?_⟩
  · unfold classify
    cases use_cache with
    | false => simpa using hmiss
    | true =>
        cases hc : cacheLookup model_name with
        | none => simpa [hc] using hmiss
        | some c => simp only [hc]; rfl
  · intro r hrr
    unfold classifyMiss at hrr
    simp only [hr, if_true] at hrr
    cases hrr
    show resolveModel models model_name = models.headD "mock"
    unfold resolveModel
    rw [if_neg hunk]
    cases models <;> rfl

/-- Witness for C9: the model table `["mobilenet_v2", "mock"]` with the
unknown name `"typo"` falls back to `"mobilenet_v2"`. -/
theorem classify_unknown_model_falls_back_witness :
    (∀ m ∈ ["mobilenet_v2", "mock"], routable m = true) ∧
    ("typo" ∉ ["mobilenet_v2", "mock"]) ∧
    ((classify ["mobilenet_v2", "mock"] (fun _ => mockPredictions)
        (fun _ => none) true "typo" (mkRat 1 2)).isOk = true ∧
     ∀ r, classifyMiss ["mobilenet_v2", "mock"] (fun _ => mockPredictions)
        "typo" (mkRat 1 2) = Except.ok r →
      r.model_used = (["mobilenet_v2", "mock"] : List String).headD "mock") :=
  ⟨by decide, by decide,
   classify_unknown_model_falls_back ["mobilenet_v2", "mock"]
     (fun _ => mockPredictions) (fun _ => none) true "typo" (mkRat 1 2)
     (by decide) (by decide)⟩

end ClassificationService

namespace CacheService

/-- C8: when the cache store is disabled, unavailable, or throws during an
operation, `CacheService.get` returns `None` (a miss) and
`CacheService.set` returns `False`; both are total functions of the store
outcome (every store exception is caught), so classification proceeds as if
every lookup missed. -/
theorem get_set_degrade_to_miss
    (client : Option RedisClient) (store : RedisClient) (key value : String)
    (ttl : Option Nat) (defaultTtl : Nat) (e : String) :
    (CacheService.get false client key = none ∧
     CacheService.set false client key value ttl defaultTtl = false) ∧
    (CacheService.get true none key = none ∧
     CacheService.set true none key value ttl defaultTtl = false) ∧
    (store.get key = StoreResult.exn e →
      CacheService.get true (some store) key = none) ∧
    ((∀ t, store.setex key t value = StoreResult.exn e) →
      CacheService.set true (some store) key value ttl defaultTtl = false) ∧
    (∀ (models : List String) (backend : String → List Prediction)
        (model_name : String) (T : ℚ),
      ClassificationService.classify models backend (fun _ => none) true
          model_name T =
        ClassificationService.classifyMiss models backend model_name T) := by
  refine ⟨⟨?_, ?_⟩, ⟨rfl, rfl⟩, ?_, ?_, ?_⟩
  · cases client <;> rfl
  · cases client <;> rfl
  · intro h
    show (match store.get key with
          | .ok (some v) => if v = "" then none else some v
          | .ok none => none
          | .exn _ => none) = none
    rw [h]
  · intro h
    show (match store.setex key (ttlValue ttl defaultTtl) value with
          | .ok _ => true
          | .exn _ => false) = false
    rw [h]
  · intro models backend model_name T
    rfl

/-- Witness for C8: a store whose every operation throws. -/
theorem get_set_degrade_to_miss_witness :
    (exnStore.get "classification:abc:mock" =
      StoreResult.exn "connection refused") ∧
    (∀ t, exnStore.setex "classification:abc:mock" t "v" =
      StoreResult.exn "connection refused") ∧
    (CacheService.get true (some exnStore) "classification:abc:mock" = none) ∧
    (CacheService.set true (some exnStore) "classification:abc:mock" "v"
      none 3600 = false) :=
  ⟨rfl, fun _ => rfl,
   (get_set_degrade_to_miss (some exnStore) exnStore "classification:abc:mock"
     "v" none 3600 "connection refused").2.2.1 rfl,
   (get_set_degrade_to_miss (some exnStore) exnStore "classification:abc:mock"
     "v" none 3600 "connection refused").2.2.2.1 (fun _ => rfl)⟩

end CacheService

namespace MonetizationService

theorem log_api_usage_used (s : MonetState) (c : UsageCall) :
    (log_api_usage s c).1.subscription.used_requests =
      s.subscription.used_requests + 1 := rfl

theorem log_api_usage_included (s : MonetState) (c : UsageCall) :
    (log_api_usage s c).1.subscription.included_requests =
      s.subscription.included_requests := rfl

theorem log_api_usage_total (s : MonetState) (c : UsageCall) :
    (log_api_usage s c).1.total_requests = s.total_requests + 1 := rfl

theorem log_api_usage_logs (s : MonetState) (c : UsageCall) :
    (log_api_usage s c).1.usage_logs =
      truncateLogs (s.usage_logs ++ [entryOf c]) := rfl

theorem log_api_usage_overage (s : MonetState) (c : UsageCall) :
    (log_api_usage s c).1.subscription.overage_requests =
      if s.subscription.included_requests < s.subscription.used_requests + 1
      then s.subscription.used_requests + 1 - s.subscription.included_requests
      else s.subscription.overage_requests := rfl

theorem logCalls_used (calls : List UsageCall) (s : MonetState) :
    (logCalls s calls).subscription.used_requests =
      s.subscription.used_requests + calls.length := by
  induction calls generalizing s with
  | nil => simp [logCalls]
  | cons c cs ih =>
      show (logCalls (log_api_usage s c).1 cs).subscription.used_requests = _
      rw [ih, log_api_usage_used, List.length_cons]
      omega

theorem logCalls_included (calls : List UsageCall) (s : MonetState) :
    (logCalls s calls).subscription.included_requests =
      s.subscription.included_requests := by
  induction calls generalizing s with
  | nil => simp [logCalls]
  | cons c cs ih =>
      show (logCalls (log_api_usage s c).1 cs).subscription.included_requests = _
      rw [ih, log_api_usage_included]

theorem logCalls_overage_inv (calls : List UsageCall) (s : MonetState)
    (h : s.subscription.overage_requests =
      s.subscription.used_requests - s.subscription.included_requests) :
    (logCalls s calls).subscription.overage_requests =
      (logCalls s calls).subscription.used_requests -
        (logCalls s calls).subscription.included_requests := by
  induction calls generalizing s with
  | nil => simpa [logCalls] using h
  | cons c cs ih =>
      show (logCalls (log_api_usage s c).1 cs).subscription.overage_requests = _
      apply ih
      rw [log_api_usage_overage, log_api_usage_used, log_api_usage_included]
      by_cases hlt :
        s.subscription.included_requests < s.subscription.used_requests + 1
      · rw [if_pos hlt]
      · rw [if_neg hlt, h]
        omega

theorem truncateLogs_length (l : List UsageEntry) :
    (truncateLogs l).length = min l.length 10000 := by
  unfold truncateLogs
  by_cases h : 10000 < l.length
  · rw [if_pos h, List.length_drop]
    omega
  · rw [if_neg h]
    omega

theorem truncateLogs_of_le (l : List UsageEntry) (h : l.length ≤ 10000) :
    truncateLogs l = l := by
  unfold truncateLogs
  rw [if_neg (by omega)]

theorem truncateLogs_suffix (l : List UsageEntry) : truncateLogs l <:+ l := by
  unfold truncateLogs
  by_cases h : 10000 < l.length
  · rw [if_pos h]
    exact List.drop_suffix _ _
  · rw [if_neg h]

theorem logCalls_logs_length (calls : List UsageCall) (s : MonetState)
    (h : s.usage_logs.length ≤ 10000) :
    (logCalls s calls).usage_logs.length =
      min (s.usage_logs.length + calls.length) 10000 := by
  induction calls generalizing s with
  | nil =>
      show s.usage_logs.length = _
      simp only [List.length_nil, Nat.add_zero]
      omega
  | cons c cs ih =>
      show (logCalls (log_api_usage s c).1 cs).usage_logs.length = _
      have hlen : (log_api_usage s c).1.usage_logs.length =
          min (s.usage_logs.length + 1) 10000 := by
        rw [log_api_usage_logs, truncateLogs_length, List.length_append,
          List.length_singleton]
      rw [ih _ (by omega), hlen, List.length_cons]
      omega

theorem logCalls_logs_of_le (calls : List UsageCall) (s : MonetState)
    (h : s.usage_logs.length + calls.length ≤ 10000) :
    (logCalls s calls).usage_logs = s.usage_logs ++ calls.map entryOf := by
  induction calls generalizing s with
  | nil =>
      show s.usage_logs = _
      simp
  | cons c cs ih =>
      show (logCalls (log_api_usage s c).1 cs).usage_logs = _
      rw [List.length_cons] at h
      have hstep : (log_api_usage s c).1.usage_logs =
          s.usage_logs ++ [entryOf c] := by
        rw [log_api_usage_logs]
        apply truncateLogs_of_le
        rw [List.length_append, List.length_singleton]
        omega
      rw [ih _ (by rw [hstep, List.length_append, List.length_singleton]; omega),
        hstep, List.map_cons, List.append_assoc, List.singleton_append]

/-- C3: for every sequence of `log_api_usage` calls for one subscription
within one billing cycle, `used_requests` equals the number of log calls,
is monotonically non-decreasing, and
`overage_requests = max(0, used_requests - included_requests)`; for the
basic tier (`included_requests = 10000`), 10050 logged requests leave
`overage_requests = 50`. -/
theorem used_requests_counts_and_overage (tier : SubscriptionTier)
    (calls more : List UsageCall) :
    (logCalls (freshState tier) calls).subscription.used_requests =
      calls.length ∧
    (logCalls (freshState tier) calls).subscription.used_requests ≤
      (logCalls (freshState tier) (calls ++ more)).subscription.used_requests ∧
    ((logCalls (freshState tier) calls).subscription.overage_requests : ℤ) =
      max 0 ((calls.length : ℤ) -
        ((tierConfig tier).included_requests : ℤ)) ∧
    (tier = SubscriptionTier.basic → calls.length = 10050 →
      (logCalls (freshState tier) calls).subscription.overage_requests = 50) := by
  have hused : ∀ cs : List UsageCall,
      (logCalls (freshState tier) cs).subscription.used_requests = cs.length := by
    intro cs
    rw [logCalls_used]
    show 0 + cs.length = cs.length
    omega
  have hinc : (logCalls (freshState tier) calls).subscription.included_requests =
      (tierConfig tier).included_requests := by
    rw [logCalls_included]
    rfl
  have hov : (logCalls (freshState tier) calls).subscription.overage_requests =
      calls.length - (tierConfig tier).included_requests := by
    have hi := logCalls_overage_inv calls (freshState tier) (by
      show (0 : Nat) = 0 - (tierConfig tier).included_requests
      omega)
    rw [hused calls, hinc] at hi
    exact hi
  refine ⟨hused calls, ?_, ?_, ?_⟩
  · rw [hused calls, hused (calls ++ more), List.length_append]
    omega
  · rw [hov]
    rcases le_total calls.length (tierConfig tier).included_requests with h | h
    · rw [Nat.sub_eq_zero_of_le h]
      have : ((calls.length : ℤ) - ((tierConfig tier).included_requests : ℤ)) ≤ 0 := by
        omega
      rw [max_eq_left this]
      rfl
    · have hcast : (((calls.length - (tierConfig tier).included_requests : Nat)) : ℤ) =
        (calls.length : ℤ) - ((tierConfig tier).included_requests : ℤ) := by
        omega
      rw [hcast, max_eq_right (by omega)]
  · intro htier hlen
    subst htier
    rw [hov, hlen]
    rfl

/-- Witness for C3: 10050 identical calls on a fresh basic-tier
subscription leave an overage of 50. -/
theorem used_requests_counts_and_overage_witness :
    (SubscriptionTier.basic = SubscriptionTier.basic) ∧
    ((List.replicate 10050 sampleCall).length = 10050) ∧
    (logCalls (freshState SubscriptionTier.basic)
        (List.replicate 10050 sampleCall)).subscription.overage_requests = 50 :=
  ⟨rfl, by rw [List.length_replicate],
   (used_requests_counts_and_overage SubscriptionTier.basic
     (List.replicate 10050 sampleCall) []).2.2.2 rfl
     (by rw [List.length_replicate])⟩

/-- C4: the cost computed by `log_api_usage` equals
`base_cost * complexity_multiplier * size_time_multiplier`, where the
size/time multiplier is the product of a `1.5` factor (processing time
above 5 s) and a `1.2` factor (request above 1 MB): `1.8` when both hold
(multiplicative, not additive), `1.5` or `1.2` when exactly one holds,
`1.0` when neither holds. -/
theorem cost_formula_multiplicative (s : MonetState) (c : UsageCall) :
    (log_api_usage s c).2.cost =
      base_cost c.service_type * complexity_multiplier c.service_type *
        ((if 5 < c.processing_time then mkRat 3 2 else 1) *
         (if 1024 * 1024 < c.request_size then mkRat 6 5 else 1)) ∧
    (5 < c.processing_time → 1024 * 1024 < c.request_size →
      cost_multiplier c.processing_time c.request_size = mkRat 9 5) ∧
    (5 < c.processing_time → c.request_size ≤ 1024 * 1024 →
      cost_multiplier c.processing_time c.request_size = mkRat 3 2) ∧
    (c.processing_time ≤ 5 → 1024 * 1024 < c.request_size →
      cost_multiplier c.processing_time c.request_size = mkRat 6 5) ∧
    (c.processing_time ≤ 5 → c.request_size ≤ 1024 * 1024 →
      cost_multiplier c.processing_time c.request_size = 1) := by
  refine ⟨rfl, ?_, ?_, ?_, ?_⟩
  · intro h1 h2
    unfold cost_multiplier
    rw [if_pos h1, if_pos h2, Rat.mkRat_eq_div, Rat.mkRat_eq_div,
      Rat.mkRat_eq_div]
    norm_num
  · intro h1 h2
    unfold cost_multiplier
    rw [if_pos h1, if_neg (not_lt.mpr h2), mul_one]
  · intro h1 h2
    unfold cost_multiplier
    rw [if_neg (not_lt.mpr h1), if_pos h2, one_mul]
  · intro h1 h2
    unfold cost_multiplier
    rw [if_neg (not_lt.mpr h1), if_neg (not_lt.mpr h2), mul_one]

/-- Witness for C4: a 6-second, 2.5 MB video-classification call gets the
composed multiplier `1.8`. -/
theorem cost_formula_multiplicative_witness :
    ((5 : ℚ) < sampleBigCall.processing_time) ∧
    (1024 * 1024 < sampleBigCall.request_size) ∧
    cost_multiplier sampleBigCall.processing_time sampleBigCall.request_size =
      mkRat 9 5 :=
  ⟨by decide, by decide,
   (cost_formula_multiplicative (freshState SubscriptionTier.free)
     sampleBigCall).2.1 (by decide) (by decide)⟩

/-- C10: `log_api_usage` increments the subscription's `used_requests` and
the key's `total_requests` by exactly 1 and records the computed cost,
whether `success` is `True` or `False` — the flag gates nothing in metering
or billing. -/
theorem log_usage_ignores_success (s : MonetState) (c : UsageCall) :
    (log_api_usage s c).1.subscription.used_requests =
      s.subscription.used_requests + 1 ∧
    (log_api_usage s c).1.total_requests = s.total_requests + 1 ∧
    (log_api_usage s c).2.cost =
      calculated_cost c.service_type c.processing_time c.request_size ∧
    (log_api_usage s { c with success := true }).1.subscription =
      (log_api_usage s { c with success := false }).1.subscription ∧
    (log_api_usage s { c with success := true }).1.total_requests =
      (log_api_usage s { c with success := false }).1.total_requests ∧
    (log_api_usage s { c with success := true }).2 =
      (log_api_usage s { c with success := false }).2 :=
  ⟨rfl, rfl, rfl, rfl, rfl, rfl⟩

/-- C6 counterexample: after 10001 appended entries the ledger holds only
10000 entries — the oldest appended entry has been dropped by the
`usage_logs[-10000:]` truncation, refuting "never removed". -/
theorem usage_log_truncation_counterexample :
    (logCalls (freshState SubscriptionTier.basic)
        (List.replicate 10001 sampleCall)).usage_logs.length = 10000 ∧
    (List.replicate 10001 sampleCall).length = 10001 ∧
    (logCalls (freshState SubscriptionTier.basic)
        (List.replicate 10001 sampleCall)).usage_logs.length ≠
      (List.replicate 10001 sampleCall).length := by
  have hlen : (logCalls (freshState SubscriptionTier.basic)
      (List.replicate 10001 sampleCall)).usage_logs.length = 10000 := by
    rw [logCalls_logs_length _ _ (by show (0 : Nat) ≤ 10000; omega),
      List.length_replicate]
    show min (0 + 10001) 10000 = 10000
    omega
  refine ⟨hlen, by rw [List.length_replicate], ?_⟩
  rw [hlen, List.length_replicate]
  omega

/-- C6 (amended): entries are never mutated; each `log_api_usage` call
appends exactly its entry, but the log keeps only the most recent 10000
entries (the result is a suffix of `old ++ [entry]`, and equals it exactly
while the log is below the cap); consequently, the scanned total cost
equals the sum of the appended costs as long as at most 10000 entries were
appended in the period. -/
theorem usage_log_append_only_upto_cap (s : MonetState) (c : UsageCall)
    (tier : SubscriptionTier) (calls : List UsageCall) :
    (log_api_usage s c).1.usage_logs <:+ s.usage_logs ++ [entryOf c] ∧
    (s.usage_logs.length < 10000 →
      (log_api_usage s c).1.usage_logs = s.usage_logs ++ [entryOf c]) ∧
    (calls.length ≤ 10000 →
      ((logCalls (freshState tier) calls).usage_logs.map UsageEntry.cost).sum =
        ((calls.map entryOf).map UsageEntry.cost).sum) := by
  refine ⟨?_, ?_, ?_⟩
  · rw [log_api_usage_logs]
    exact truncateLogs_suffix _
  · intro h
    rw [log_api_usage_logs]
    apply truncateLogs_of_le
    rw [List.length_append, List.length_singleton]
    omega
  · intro h
    rw [logCalls_logs_of_le _ _ (by
      show (0 : Nat) + calls.length ≤ 10000
      omega)]
    show ((([] : List UsageEntry) ++ calls.map entryOf).map UsageEntry.cost).sum = _
    rw [List.nil_append]

/-- Witness for C6 (amended): one call on a fresh ledger. -/
theorem usage_log_append_only_upto_cap_witness :
    ((freshState SubscriptionTier.basic).usage_logs.length < 10000) ∧
    (([sampleCall] : List UsageCall).length ≤ 10000) ∧
    ((log_api_usage (freshState SubscriptionTier.basic) sampleCall).1.usage_logs =
      (freshState SubscriptionTier.basic).usage_logs ++ [entryOf sampleCall]) ∧
    (((logCalls (freshState SubscriptionTier.basic)
        [sampleCall]).usage_logs.map UsageEntry.cost).sum =
      (([sampleCall].map entryOf).map UsageEntry.cost).sum) :=
  ⟨by decide, by decide,
   (usage_log_append_only_upto_cap (freshState SubscriptionTier.basic)
     sampleCall SubscriptionTier.basic [sampleCall]).2.1 (by decide),
   (usage_log_append_only_upto_cap (freshState SubscriptionTier.basic)
     sampleCall SubscriptionTier.basic [sampleCall]).2.2 (by decide)⟩

theorem check_denies_minute (N H : Nat) (st : RateState) (t : Nat)
    (h : N ≤ st.minuteCount t) :
    (check_rate_limits ⟨N, H⟩ st t).1 =
      RateCheck.deniedMinute N (st.minuteCount t) (t + 1) := by
  simp only [check_rate_limits]
  rw [if_pos h]

theorem check_allows (N H : Nat) (st : RateState) (t : Nat)
    (hm : st.minuteCount t < N) (hh : st.hourCount (t / 60) < H) :
    (check_rate_limits ⟨N, H⟩ st t).1 =
      RateCheck.allowed (N - st.minuteCount t - 1)
        (H - st.hourCount (t / 60) - 1) ∧
    (check_rate_limits ⟨N, H⟩ st t).2.minuteCount t = st.minuteCount t + 1 ∧
    (check_rate_limits ⟨N, H⟩ st t).2.hourCount (t / 60) =
      st.hourCount (t / 60) + 1 ∧
    (∀ k, k ≠ t →
      (check_rate_limits ⟨N, H⟩ st t).2.minuteCount k = st.minuteCount k) ∧
    (∀ k, k ≠ t / 60 →
      (check_rate_limits ⟨N, H⟩ st t).2.hourCount k = st.hourCount k) := by
  simp only [check_rate_limits]
  rw [if_neg (Nat.not_le.mpr hm), if_neg (Nat.not_le.mpr hh)]
  refine ⟨rfl, by simp, by simp, ?_, ?_⟩ <;> intro k hk <;> simp [hk]

theorem iterCheck_counts (N H t : Nat) :
    ∀ n, n ≤ N → n ≤ H →
    (∀ k, (iterCheck ⟨N, H⟩ zeroRate t n).minuteCount k =
      if k = t then n else 0) ∧
    (∀ k, (iterCheck ⟨N, H⟩ zeroRate t n).hourCount k =
      if k = t / 60 then n else 0) := by
  intro n
  induction n with
  | zero =>
      intro _ _
      constructor <;> intro k <;> simp [iterCheck, zeroRate]
  | succ m ih =>
      intro hmN hmH
      obtain ⟨ihm, ihh⟩ := ih (by omega) (by omega)
      have hm : (iterCheck ⟨N, H⟩ zeroRate t m).minuteCount t < N := by
        rw [ihm t, if_pos rfl]
        omega
      have hh : (iterCheck ⟨N, H⟩ zeroRate t m).hourCount (t / 60) < H := by
        rw [ihh (t / 60), if_pos rfl]
        omega
      obtain ⟨_, h2, h3, h4, h5⟩ :=
        check_allows N H (iterCheck ⟨N, H⟩ zeroRate t m) t hm hh
      constructor
      · intro k
        show (check_rate_limits ⟨N, H⟩ (iterCheck ⟨N, H⟩ zeroRate t m)
          t).2.minuteCount k = _
        by_cases hk : k = t
        · subst hk
          rw [h2, ihm k, if_pos rfl, if_pos rfl]
        · rw [h4 k hk, ihm k, if_neg hk, if_neg hk]
      · intro k
        show (check_rate_limits ⟨N, H⟩ (iterCheck ⟨N, H⟩ zeroRate t m)
          t).2.hourCount k = _
        by_cases hk : k = t / 60
        · subst hk
          rw [h3, ihh (t / 60), if_pos rfl, if_pos rfl]
        · rw [h5 k hk, ihh k, if_neg hk, if_neg hk]

/-- C2: with per-minute limit `N` and per-hour limit `H` (`0 < N < H`), the
first `N` checks in a minute window are allowed, the `(N+1)`-th is denied
carrying limit `N`, current count `N` and a reset time one minute later;
the minute limit is checked before the hour limit (a full minute window
denies regardless of the hour count); the first request of the next minute
window is allowed; at the basic tier (60/minute, 1000/hour) the 61st
request in one window is denied with limit 60. -/
theorem rate_limiter_boundary (N H t : Nat) (h0 : 0 < N) (hNH : N < H) :
    (∀ k, k < N →
      (check_rate_limits ⟨N, H⟩ (iterCheck ⟨N, H⟩ zeroRate t k) t).1 =
        RateCheck.allowed (N - k - 1) (H - k - 1)) ∧
    (check_rate_limits ⟨N, H⟩ (iterCheck ⟨N, H⟩ zeroRate t N) t).1 =
      RateCheck.deniedMinute N N (t + 1) ∧
    (∀ st : RateState, N ≤ st.minuteCount t →
      (check_rate_limits ⟨N, H⟩ st t).1 =
        RateCheck.deniedMinute N (st.minuteCount t) (t + 1)) ∧
    (check_rate_limits ⟨N, H⟩ (iterCheck ⟨N, H⟩ zeroRate t N) (t + 1)).1 =
      RateCheck.allowed (N - 1)
        (H - (iterCheck ⟨N, H⟩ zeroRate t N).hourCount ((t + 1) / 60) - 1) ∧
    ((tierConfig SubscriptionTier.basic).rate_limit_per_minute = 60 ∧
     (tierConfig SubscriptionTier.basic).rate_limit_per_hour = 1000) ∧
    (check_rate_limits ⟨60, 1000⟩ (iterCheck ⟨60, 1000⟩ zeroRate t 60) t).1 =
      RateCheck.deniedMinute 60 60 (t + 1) := by
  have main2 : ∀ (M K : Nat), 0 < M → M < K →
      (check_rate_limits ⟨M, K⟩ (iterCheck ⟨M, K⟩ zeroRate t M) t).1 =
        RateCheck.deniedMinute M M (t + 1) := by
    intro M K _ hMK
    have hc := (iterCheck_counts M K t M le_rfl (by omega)).1 t
    have hd := check_denies_minute M K (iterCheck ⟨M, K⟩ zeroRate t M) t
      (by rw [hc]; simp)
    rw [hd, hc]
    simp
  refine ⟨?_, main2 N H h0 hNH, ?_, ?_, ⟨rfl, rfl⟩,
    main2 60 1000 (by omega) (by omega)⟩
  · intro k hk
    obtain ⟨hmk, hhk⟩ := iterCheck_counts N H t k (by omega) (by omega)
    have hm : (iterCheck ⟨N, H⟩ zeroRate t k).minuteCount t < N := by
      rw [hmk t, if_pos rfl]
      omega
    have hh : (iterCheck ⟨N, H⟩ zeroRate t k).hourCount (t / 60) < H := by
      rw [hhk (t / 60), if_pos rfl]
      omega
    have ha := (check_allows N H _ t hm hh).1
    rw [ha, hmk t, hhk (t / 60), if_pos rfl, if_pos rfl]
  · intro st hst
    exact check_denies_minute N H st t hst
  · obtain ⟨hmN, hhN⟩ := iterCheck_counts N H t N le_rfl (by omega)
    have hm : (iterCheck ⟨N, H⟩ zeroRate t N).minuteCount (t + 1) < N := by
      rw [hmN (t + 1)]
      simp only [Nat.succ_ne_self, if_false]
      omega
    have hh : (iterCheck ⟨N, H⟩ zeroRate t N).hourCount ((t + 1) / 60) < H := by
      rw [hhN ((t + 1) / 60)]
      by_cases hq : (t + 1) / 60 = t / 60
      · rw [if_pos hq]
        omega
      · rw [if_neg hq]
        omega
    have ha := (check_allows N H _ (t + 1) hm hh).1
    rw [ha, hmN (t + 1)]
    simp only [Nat.succ_ne_self, if_false, Nat.sub_zero]

/-- Witness for C2 at the basic-tier limits, minute window 0. -/
theorem rate_limiter_boundary_witness :
    (0 < 60) ∧ (60 < 1000) ∧
    (check_rate_limits ⟨60, 1000⟩ (iterCheck ⟨60, 1000⟩ zeroRate 0 60) 0).1 =
      RateCheck.deniedMinute 60 60 1 :=
  ⟨by decide, by decide,
   (rate_limiter_boundary 60 1000 0 (by decide) (by decide)).2.1⟩

end MonetizationService

namespace MonetizationMiddleware

open MonetizationService

/-- C7 (code behaviour at the failing input): the middleware answers 401
when the `X-API-Key` header is missing and 401 when the key is invalid, but
on a rate-limit denial — `check_rate_limits` returns a dict whose `allowed`
key is `False` and which has no `rate_limited` key — the middleware's
`rate_limit_status.get("rate_limited")` test is falsy and the denied
request is *forwarded* to the handler instead of receiving 429. -/
theorem middleware_dispatch_statuses :
    dispatch none (fun _ => true)
        (fun _ => rateStatusDict (RateCheck.allowed 59 999)) =
      MwOutcome.reject 401 "API_KEY_MISSING" ∧
    dispatch (some "bad") (fun _ => false)
        (fun _ => rateStatusDict (RateCheck.allowed 59 999)) =
      MwOutcome.reject 401 "API_KEY_INVALID" ∧
    (rateStatusDict (RateCheck.deniedMinute 60 60 1)).allowed = some false ∧
    (rateStatusDict (RateCheck.deniedMinute 60 60 1)).rate_limited = none ∧
    dispatch (some "ak_live_key") (fun _ => true)
        (fun _ => rateStatusDict (RateCheck.deniedMinute 60 60 1)) =
      MwOutcome.forward :=
  ⟨rfl, rfl, rfl, rfl, rfl⟩

end MonetizationMiddleware

end ImgClass
